import Mathlib

/-!
Shallow embedding of the audio playback engine
(`src-tauri/src/audio_player.rs` and `src-tauri/src/mp3_analyzer.rs`).

Modelling conventions:
* `f32`/`f64` quantities (volume, seconds) are embedded as `ℚ`.
* Bytes are `Nat`s; the `u8`/`u32` arithmetic performed by the code
  (synchsafe shifts, big-endian header assembly, frame-size computation)
  never overflows its machine width on byte-valued inputs, so no `% 2^w`
  is needed.
* The filesystem maps paths to optional files; a path exists iff the map
  returns `some`.  A file is its byte length together with a byte-indexed
  contents function (`metadata.len()` is the length; a `read_exact` of
  `k` bytes from position `p` succeeds iff `p + k ≤ len` and yields the
  bytes at indices `p, p+1, …`; `seek` just changes `p`).  Every read
  the code performs is guarded by the corresponding length check, so the
  contents function is never consulted out of bounds.
* `rodio::Decoder::new` is an external library call; it is abstracted as
  a deterministic oracle `dec : Nat → Nat → Bool` taking the byte offset
  at which the reader is positioned and the `BufReader` capacity, and
  returning whether decoding succeeds.  A successfully built decoder is
  represented by the pair (offset, capacity) that produced it.
* `std::time::Instant` arithmetic is modelled by passing each position
  tick its elapsed time (in seconds, as `ℚ`) explicitly.
-/

namespace AudioPlayer

/-- Abstraction of `std::path::PathBuf` exposing exactly what the engine
uses: identity (as a filesystem key), `display()`, and `extension()`
(already converted to `str`, `none` when the path has no extension). -/
structure AudioPath where
  display : String
  ext : Option String
  deriving DecidableEq, Repr

/-- `Track` value object (`models.rs`): metadata plus file path and
duration in seconds. -/
structure Track where
  id : String
  file_path : AudioPath
  title : String
  artist : String
  album : String
  track_number : Option Nat
  year : Option Nat
  genre : Option String
  duration : ℚ
  cover_art : Option (List Nat)
  deriving DecidableEq, Repr

/-- The mutex-guarded `AudioPlayerState`.  `playback_start_time : Option
Instant` is modelled by the `Bool` `playback_start_set` (whether it is
`Some`); the instant's value is absorbed into the elapsed-time argument
of `update_position`. -/
structure AudioPlayerState where
  current_track : Option Track
  is_playing : Bool
  volume : ℚ
  current_time : ℚ
  duration : ℚ
  playback_start_set : Bool
  deriving DecidableEq, Repr

/-- Initial shared state installed by `AudioPlayer::new`. -/
def initialState : AudioPlayerState :=
  { current_track := none
    is_playing := false
    volume := 1
    current_time := 0
    duration := 0
    playback_start_set := false }

/-- A live `rodio::Sink`: whether it is paused, its volume, and whether
`stop()` has been called on it. -/
structure SinkState where
  paused : Bool
  volume : ℚ
  stopped : Bool
  deriving DecidableEq, Repr

/-- `AppError` (`errors.rs`), restricted to the variants the engine
produces.  `FileSystem` carries the rendered `io::Error` message. -/
inductive AppError where
  | FileSystem (msg : String)
  | Playback (msg : String)
  deriving DecidableEq, Repr

/-- `PlaybackEvent` from `audio_player.rs`. -/
inductive PlaybackEvent where
  | TrackStarted (t : Track)
  | TrackPaused
  | TrackResumed
  | TrackStopped
  | TrackFinished
  | PositionChanged (pos : ℚ)
  | VolumeChanged (v : ℚ)
  | Error (msg : String)
  deriving DecidableEq, Repr

/-- Rust `f32::clamp(min, max)`: `min` if below, `max` if above,
otherwise the value itself. -/
def rustClamp (v lo hi : ℚ) : ℚ :=
  if v < lo then lo else if hi < v then hi else v

/-- Result of one actor-side command handler: the reply sent back on the
oneshot channel, the shared state and sink slot after the handler, and
the events emitted (in order). -/
structure HandlerResult where
  res : Except AppError Unit
  state : AudioPlayerState
  sink : Option SinkState
  events : List PlaybackEvent
  deriving Repr

/-- `handle_set_volume`: clamp, store unconditionally, propagate to the
sink if one exists, emit `VolumeChanged` with the clamped value. -/
def handle_set_volume (volume : ℚ) (st : AudioPlayerState)
    (current_sink : Option SinkState) : HandlerResult :=
  let clamped_volume := rustClamp volume 0 1
  { res := .ok ()
    state := { st with volume := clamped_volume }
    sink := current_sink.map (fun s => { s with volume := clamped_volume })
    events := [.VolumeChanged clamped_volume] }

/-- `handle_seek`: rodio cannot seek, so every seek fails. -/
def handle_seek (_position : ℚ) : Except AppError Unit :=
  .error (.Playback "Seeking is not supported in the current rodio version")

/-- The actor-loop dispatch of a `Seek` command: `handle_seek` is called
with the position only; neither the shared state nor the sink slot is
touched and no event is emitted. -/
def seekStep (position : ℚ) (st : AudioPlayerState)
    (current_sink : Option SinkState) : HandlerResult :=
  { res := handle_seek position
    state := st
    sink := current_sink
    events := [] }

/-- `handle_stop`: only when a sink exists does it stop it, reset the
state fields and emit `TrackStopped`; the sink slot is cleared in every
case and the command always succeeds. -/
def handle_stop (st : AudioPlayerState)
    (current_sink : Option SinkState) : HandlerResult :=
  match current_sink with
  | some _ =>
      { res := .ok ()
        state := { st with
                    is_playing := false
                    current_track := none
                    current_time := 0
                    duration := 0
                    playback_start_set := false }
        sink := none
        events := [.TrackStopped] }
  | none =>
      { res := .ok (), state := st, sink := none, events := [] }

/-- `handle_pause`: pause only when a sink exists and we are playing. -/
def handle_pause (st : AudioPlayerState)
    (current_sink : Option SinkState) : HandlerResult :=
  match current_sink with
  | some s =>
      if st.is_playing then
        { res := .ok ()
          state := { st with is_playing := false, playback_start_set := false }
          sink := some { s with paused := true }
          events := [.TrackPaused] }
      else
        { res := .ok (), state := st, sink := some s, events := [] }
  | none => { res := .ok (), state := st, sink := none, events := [] }

/-- `handle_resume`: resume only when a sink exists and we are not
playing. -/
def handle_resume (st : AudioPlayerState)
    (current_sink : Option SinkState) : HandlerResult :=
  match current_sink with
  | some s =>
      if st.is_playing then
        { res := .ok (), state := st, sink := some s, events := [] }
      else
        { res := .ok ()
          state := { st with is_playing := true, playback_start_set := true }
          sink := some { s with paused := false }
          events := [.TrackResumed] }
  | none => { res := .ok (), state := st, sink := none, events := [] }

/-! ## Position ticks (`update_position`) -/

/-- Result of one 100ms position tick: updated shared state, updated
`last_position` debounce register, and the emitted events.  The sink is
only read (`is_paused`), never modified, by `update_position`. -/
structure TickResult where
  state : AudioPlayerState
  last_position : ℚ
  events : List PlaybackEvent
  deriving Repr

/-- `update_position`: if a sink exists, we are playing, the sink is not
paused and `playback_start_time` is set, advance `current_time` by the
elapsed time since the start instant (passed explicitly as `elapsed`).
Below `duration` the position advances and `PositionChanged` is emitted
only when it moved at least 0.5s from the last emitted position; past
`duration` the position clamps to `duration`, playback stops, and
`TrackFinished` is emitted. -/
def update_position (current_sink : Option SinkState)
    (st : AudioPlayerState) (last_position : ℚ) (elapsed : ℚ) : TickResult :=
  match current_sink with
  | none => { state := st, last_position := last_position, events := [] }
  | some sink =>
      if st.is_playing ∧ sink.paused = false then
        if st.playback_start_set then
          let new_position := st.current_time + elapsed
          if new_position ≤ st.duration then
            if 1/2 ≤ |new_position - last_position| then
              { state := { st with current_time := new_position }
                last_position := new_position
                events := [.PositionChanged new_position] }
            else
              { state := { st with current_time := new_position }
                last_position := last_position
                events := [] }
          else
            { state := { st with
                          current_time := st.duration
                          is_playing := false
                          playback_start_set := false }
              last_position := last_position
              events := [.TrackFinished] }
        else { state := st, last_position := last_position, events := [] }
      else { state := st, last_position := last_position, events := [] }

/-- Run a sequence of position ticks, threading state and the debounce
register and concatenating events.  Each list entry is the elapsed time
observed by that tick. -/
def runTicks (current_sink : Option SinkState) :
    List ℚ → AudioPlayerState → ℚ → TickResult
  | [], st, last => { state := st, last_position := last, events := [] }
  | e :: es, st, last =>
      let r := update_position current_sink st last e
      let rest := runTicks current_sink es r.state r.last_position
      { state := rest.state
        last_position := rest.last_position
        events := r.events ++ rest.events }

/-! ## Decoder resolution chain (`create_robust_decoder`) -/

/-- A file on disk: its byte length and its contents, as a byte-indexed
function (only indices below `size` are ever consulted). -/
structure FileData where
  size : Nat
  byte : Nat → Nat

/-- Default capacity of `BufReader::new` (8 KiB). -/
def DEFAULT_BUF_CAP : Nat := 8 * 1024

/-- A successfully constructed decoder is identified by the read offset
and buffer capacity with which `Decoder::new` succeeded. -/
structure DecoderHandle where
  offset : Nat
  buf_cap : Nat
  deriving DecidableEq, Repr

/-- Outcome of `Decoder::new` for a given file, abstracted as a
deterministic function of the reader's byte offset and the `BufReader`
capacity. -/
def DecOracle : Type := Nat → Nat → Bool

/-- `try_standard_decoder`: open the file with its own fresh handle,
default buffer, offset 0. -/
def try_standard_decoder (file : FileData) (dec : DecOracle) :
    Except String DecoderHandle :=
  let _ := file
  if dec 0 DEFAULT_BUF_CAP then .ok ⟨0, DEFAULT_BUF_CAP⟩
  else .error "decoder error"

/-- `try_buffered_decoder`: fresh handle, 128 KiB buffer, offset 0. -/
def try_buffered_decoder (file : FileData) (dec : DecOracle) :
    Except String DecoderHandle :=
  let _ := file
  if dec 0 (128 * 1024) then .ok ⟨0, 128 * 1024⟩
  else .error "decoder error"

/-- The MP3 frame-sync test used throughout the crate on two
consecutive bytes: first byte `0xFF`, high three bits of the second all
set. -/
def isSyncPair (b0 b1 : Nat) : Bool :=
  b0 = 0xFF ∧ b1 &&& 0xE0 = 0xE0

/-- `try_validated_decoder`: `read_exact` the first 10 bytes (failing if
the file is shorter), check the sync pair at offset 0, then reopen and
decode with a 256 KiB buffer from offset 0. -/
def try_validated_decoder (file : FileData) (dec : DecOracle) :
    Except String DecoderHandle :=
  if file.size < 10 then .error "failed to fill whole buffer"
  else if isSyncPair (file.byte 0) (file.byte 1) then
    if dec 0 (256 * 1024) then .ok ⟨0, 256 * 1024⟩
    else .error "decoder error"
  else .error "File does not appear to have a valid MP3 header"

/-- The scan loop of `try_skip_header_decoder`, `for i in
0..buffer.len() - 4` with a 1024-byte buffer: at each sync pair, reopen
the file, skip `i` bytes and try decoding from there with the default
buffer; on decode failure keep scanning.  `fuel` counts the iterations
left (`1020 - i`). -/
def skipHeaderScan (dec : DecOracle) (buf : Nat → Nat) :
    Nat → Nat → Option Nat
  | 0, _ => none
  | fuel + 1, i =>
      if isSyncPair (buf i) (buf (i + 1)) ∧ dec i DEFAULT_BUF_CAP then some i
      else skipHeaderScan dec buf fuel (i + 1)

/-- `try_skip_header_decoder`: `read_exact` the first 1024 bytes
(failing if the file is shorter), scan them for a sync pair from which
decoding succeeds, and return that decoder. -/
def try_skip_header_decoder (file : FileData) (dec : DecOracle) :
    Except String DecoderHandle :=
  if file.size < 1024 then .error "failed to fill whole buffer"
  else
    match skipHeaderScan dec file.byte (1024 - 4) 0 with
    | some i => .ok ⟨i, DEFAULT_BUF_CAP⟩
    | none => .error "Could not find valid MP3 frame in first 1KB"

/-- Aggregated failure message when every strategy fails. -/
def allStrategiesFailedMsg : String :=
  "All decoding strategies failed. The file may be corrupted or use an unsupported MP3 encoding."

/-- `create_robust_decoder`: the four fallback strategies in order,
first success wins. -/
def create_robust_decoder (file : FileData) (dec : DecOracle) :
    Except String DecoderHandle :=
  match try_standard_decoder file dec with
  | .ok d => .ok d
  | .error _ =>
    match try_buffered_decoder file dec with
    | .ok d => .ok d
    | .error _ =>
      match try_validated_decoder file dec with
      | .ok d => .ok d
      | .error _ =>
        match try_skip_header_decoder file dec with
        | .ok d => .ok d
        | .error _ => .error allStrategiesFailedMsg

/-! ## `handle_play_track` -/

/-- The externally visible steps of `handle_play_track`, used to state
claims about the order in which the handler performs them. -/
inductive PlayStep where
  | stopOldSink
  | createSink
  | validateExists
  | checkNonEmpty
  | resolveDecoder
  | startPlayback
  | setStateFields
  | emitTrackStarted
  deriving DecidableEq, Repr

/-- Result of `handle_play_track`, additionally recording the trace of
steps the handler performed (in order). -/
structure PlayTrackResult where
  res : Except AppError Unit
  state : AudioPlayerState
  sink : Option SinkState
  events : List PlaybackEvent
  trace : List PlayStep
  deriving Repr

/-- The environment of effectful collaborators of the actor: the
filesystem, the per-file decode oracle, and whether `Sink::try_new`
succeeds (with the rendered rodio error when it does not). -/
structure Env where
  fs : AudioPath → Option FileData
  dec : AudioPath → DecOracle
  sink_ok : Bool
  sink_err : String

/-- The wrapper `handle_play_track` puts around a decode-chain failure
`e` (its `map_err` closure). -/
def decodeFailMsg (path : AudioPath) (ext e : String) : String :=
  "Failed to decode audio file '" ++ path.display ++ "' (format: " ++ ext
    ++ "): " ++ e
    ++ ". The audio file appears to be corrupted and cannot be played."

/-- `handle_play_track`, in the exact order of the source: stop the old
sink if any (it stays in the slot, stopped, unless the whole command
succeeds); create the new sink; check the path exists; check the file is
non-empty; resolve a decoder through the fallback chain; set the new
sink's volume from the shared state and start it; write the new state
fields; store the new sink and emit `TrackStarted`.  Any failure returns
before the shared state is written. -/
def handle_play_track (env : Env) (track : Track) (st : AudioPlayerState)
    (current_sink : Option SinkState) : PlayTrackResult :=
  let stoppedOld := current_sink.map (fun s => { s with stopped := true })
  let t0 : List PlayStep :=
    (if current_sink.isSome then [.stopOldSink] else []) ++ [.createSink]
  if env.sink_ok = false then
    { res := .error (.Playback ("Failed to create sink: " ++ env.sink_err))
      state := st, sink := stoppedOld, events := [], trace := t0 }
  else
    let t1 := t0 ++ [.validateExists]
    match env.fs track.file_path with
    | none =>
        { res := .error (.Playback
            ("Audio file not found: " ++ track.file_path.display))
          state := st, sink := stoppedOld, events := [], trace := t1 }
    | some file =>
        let t2 := t1 ++ [.checkNonEmpty]
        if file.size = 0 then
          { res := .error (.Playback
              ("Audio file is empty: " ++ track.file_path.display))
            state := st, sink := stoppedOld, events := [], trace := t2 }
        else
          let t3 := t2 ++ [.resolveDecoder]
          match create_robust_decoder file (env.dec track.file_path) with
          | .error e =>
              let file_ext := track.file_path.ext.getD "unknown"
              { res := .error (.Playback
                  (decodeFailMsg track.file_path file_ext e))
                state := st, sink := stoppedOld, events := [], trace := t3 }
          | .ok _ =>
              { res := .ok ()
                state := { st with
                            current_track := some track
                            is_playing := true
                            current_time := 0
                            duration := track.duration
                            playback_start_set := true }
                sink := some { paused := false, volume := st.volume,
                               stopped := false }
                events := [.TrackStarted track]
                trace := t3 ++ [.startPlayback, .setStateFields,
                                .emitTrackStarted] }

/-- The step order `handle_play_track` actually follows on a successful
run (derived from the source). -/
def codePlayTrackOrder (hadSink : Bool) : List PlayStep :=
  (if hadSink then [.stopOldSink] else [])
    ++ [.createSink, .validateExists, .checkNonEmpty, .resolveDecoder,
        .startPlayback, .setStateFields, .emitTrackStarted]

/-- Modelled from the spec: the step order the spec's PlayTrack
description prescribes — validation and decoder resolution before sink
creation.  Stated only to be compared with the trace of the source's
`handle_play_track`. -/
def specPlayTrackOrder (hadSink : Bool) : List PlayStep :=
  (if hadSink then [.stopOldSink] else [])
    ++ [.validateExists, .checkNonEmpty, .resolveDecoder, .createSink,
        .startPlayback, .setStateFields, .emitTrackStarted]

/-! ## `validate_audio_file` -/

/-- Rust `str::to_lowercase`, character by character (agrees with the
Rust function on ASCII extensions). -/
def to_lowercase (s : String) : String := ⟨s.data.map Char.toLower⟩

/-- The fixed set of supported extensions. -/
def supported_extensions : List String := ["mp3", "flac", "wav", "ogg", "m4a"]

/-- The "unsupported format" rejection message. -/
def unsupportedFormatMsg (ext : String) : String :=
  "Unsupported audio format: ." ++ ext ++ " (supported: "
    ++ String.intercalate ", " supported_extensions ++ ")"

/-- The wrapper `validate_audio_file` puts around a decode-chain
failure. -/
def cannotDecodeMsg (path : AudioPath) (fmt e : String) : String :=
  "Cannot decode audio file '" ++ path.display ++ "' (format: " ++ fmt
    ++ "): " ++ e
    ++ ". The file may be corrupted or use an unsupported codec."

/-- `validate_audio_file`: existence check, non-empty check, extension
check (only when the path has an extension; compared lowercased against
the supported set), then a decode attempt through the fallback chain. -/
def validate_audio_file (fs : AudioPath → Option FileData)
    (dec : AudioPath → DecOracle) (path : AudioPath) :
    Except AppError Unit :=
  match fs path with
  | none => .error (.Playback ("Audio file not found: " ++ path.display))
  | some file =>
    if file.size = 0 then
      .error (.Playback ("Audio file is empty: " ++ path.display))
    else
      let file_ext := path.ext.map to_lowercase
      let formatCheck : Except AppError Unit :=
        match file_ext with
        | some ext =>
            if supported_extensions.contains ext then .ok ()
            else .error (.Playback (unsupportedFormatMsg ext))
        | none => .ok ()
      match formatCheck with
      | .error e => .error e
      | .ok () =>
          match create_robust_decoder file (dec path) with
          | .error e =>
              .error (.Playback
                (cannotDecodeMsg path (file_ext.getD "unknown") e))
          | .ok _ => .ok ()

/-! ## MP3 analyzer (`mp3_analyzer.rs`)

File bytes are `u8` values embedded as `Nat`; where several bytes are
assembled into a `u32` the model reduces each to its low 8 bits
(`% 256`), which is the identity on genuine byte values. -/

inductive Mp3Version where
  | Mpeg1 | Mpeg2 | Mpeg25 | Reserved
  deriving DecidableEq, Repr

inductive Mp3Layer where
  | Layer1 | Layer2 | Layer3 | Reserved
  deriving DecidableEq, Repr

inductive ChannelMode where
  | Stereo | JointStereo | DualChannel | Mono
  deriving DecidableEq, Repr

structure Mp3FrameHeader where
  version : Mp3Version
  layer : Mp3Layer
  bitrate : Nat
  sample_rate : Nat
  channel_mode : ChannelMode
  frame_size : Nat
  deriving DecidableEq, Repr

structure Mp3FileInfo where
  file_size : Nat
  has_id3v2 : Bool
  has_id3v1 : Bool
  first_frame_offset : Option Nat
  frame_headers : List Mp3FrameHeader
  estimated_duration : ℚ
  issues : List String
  deriving DecidableEq, Repr

/-- `parse_id3v2_size` on the four synchsafe size bytes (its `u8` inputs
cast to `u32` and recombined; the `u32` value never overflows). -/
def parse_id3v2_size (b0 b1 b2 b3 : Nat) : Nat :=
  ((b0 % 256) <<< 21) ||| ((b1 % 256) <<< 14) ||| ((b2 % 256) <<< 7)
    ||| (b3 % 256)

/-- `parse_mp3_frame_header` on a 4-byte slice. -/
def parse_mp3_frame_header (bytes : List Nat) : Except String Mp3FrameHeader :=
  if bytes.length < 4 then .error "Not enough bytes for frame header"
  else
    let header := ((bytes.getD 0 0 % 256) <<< 24)
      ||| ((bytes.getD 1 0 % 256) <<< 16)
      ||| ((bytes.getD 2 0 % 256) <<< 8)
      ||| (bytes.getD 3 0 % 256)
    if header >>> 21 ≠ 0x7FF then .error "Invalid sync word"
    else
      let version_bits := (header >>> 19) &&& 0x3
      let version : Mp3Version :=
        match version_bits with
        | 0 => .Mpeg25
        | 1 => .Reserved
        | 2 => .Mpeg2
        | _ => .Mpeg1
      let layer_bits := (header >>> 17) &&& 0x3
      let layer : Mp3Layer :=
        match layer_bits with
        | 0 => .Reserved
        | 1 => .Layer3
        | 2 => .Layer2
        | _ => .Layer1
      let bitrate_index := (header >>> 12) &&& 0xF
      let sample_rate_index := (header >>> 10) &&& 0x3
      let channel_mode_bits := (header >>> 6) &&& 0x3
      let channel_mode : ChannelMode :=
        match channel_mode_bits with
        | 0 => .Stereo
        | 1 => .JointStereo
        | 2 => .DualChannel
        | _ => .Mono
      let bitrate : Nat :=
        match bitrate_index with
        | 1 => 32 | 2 => 40 | 3 => 48 | 4 => 56 | 5 => 64
        | 6 => 80 | 7 => 96 | 8 => 112 | 9 => 128 | 10 => 160
        | 11 => 192 | 12 => 224 | 13 => 256 | 14 => 320
        | _ => 0
      let sample_rate : Nat :=
        match sample_rate_index with
        | 0 => 44100 | 1 => 48000 | 2 => 32000 | _ => 0
      let frame_size : Nat :=
        if 0 < bitrate ∧ 0 < sample_rate then
          144 * bitrate * 1000 / sample_rate
        else 0
      .ok { version := version, layer := layer, bitrate := bitrate,
            sample_rate := sample_rate, channel_mode := channel_mode,
            frame_size := frame_size }

/-- The frame-scan loop of `analyze_mp3_file`, `for i in
0..frame_buffer.len() - 4` with an 8192-byte buffer `buf`: at each sync
pair parse a header from the 4-byte window, collecting headers and
stopping once 5 are collected.  `fuel` counts the iterations left
(`8188 - i`). -/
def findFrames (buf : Nat → Nat) :
    Nat → Nat → List Mp3FrameHeader → List Mp3FrameHeader
  | 0, _, acc => acc
  | fuel + 1, i, acc =>
      if isSyncPair (buf i) (buf (i + 1)) then
        match parse_mp3_frame_header
            [buf i, buf (i + 1), buf (i + 2), buf (i + 3)] with
        | .ok h =>
            let acc' := acc ++ [h]
            if 5 ≤ acc'.length then acc'
            else findFrames buf fuel (i + 1) acc'
        | .error _ => findFrames buf fuel (i + 1) acc
      else findFrames buf fuel (i + 1) acc

/-- The per-frame consistency issues pushed for each sampled frame after
the first (variable bitrate / variable sample rate). -/
def vbrIssues (first : Mp3FrameHeader) :
    List (Nat × Mp3FrameHeader) → List String
  | [] => []
  | (i, h) :: rest =>
      (if h.bitrate ≠ first.bitrate then
        ["Variable bitrate detected (frame " ++ toString i ++ ": "
          ++ toString h.bitrate ++ " kbps vs " ++ toString first.bitrate
          ++ " kbps)"]
      else [])
      ++ (if h.sample_rate ≠ first.sample_rate then
        ["Variable sample rate detected (frame " ++ toString i ++ ": "
          ++ toString h.sample_rate ++ " Hz vs "
          ++ toString first.sample_rate ++ " Hz)"]
      else [])
      ++ vbrIssues first rest

/-- The 3-byte `"ID3"` / `"TAG"` marker tests (`starts_with(b"ID3")` on
the first read buffer, and the 3 bytes read at end-of-file minus 128). -/
def hasId3v2Marker (file : FileData) : Bool :=
  file.byte 0 = 73 ∧ file.byte 1 = 68 ∧ file.byte 2 = 51

def hasId3v1Marker (file : FileData) : Bool :=
  file.byte (file.size - 128) = 84 ∧ file.byte (file.size - 128 + 1) = 65
    ∧ file.byte (file.size - 128 + 2) = 71

/-- `analyze_mp3_file`.  The three `read_exact` reads (4 KiB at the
start, 3 bytes at end-minus-128, 8 KiB from the first frame offset)
fail — and the whole analysis with them — when the file is too short. -/
def analyze_mp3_file (file : FileData) : Except String Mp3FileInfo :=
  let file_size := file.size
  if file.size < 4096 then .error "failed to fill whole buffer"
  else
    let has_id3v2 := hasId3v2Marker file
    let first_frame_offset : Option Nat :=
      if hasId3v2Marker file then
        some (10 + parse_id3v2_size (file.byte 6) (file.byte 7)
          (file.byte 8) (file.byte 9))
      else none
    if file.size < 128 then .error "invalid seek to a negative position"
    else
      let has_id3v1 := hasId3v1Marker file
      let start_offset := first_frame_offset.getD 0
      if file.size < start_offset + 8192 then
        .error "failed to fill whole buffer"
      else
        let frame_headers :=
          findFrames (fun j => file.byte (start_offset + j)) (8192 - 4) 0 []
        let estimated_duration : ℚ :=
          match frame_headers with
          | [] => 0
          | first :: _ =>
              let frames_per_second : ℚ := (first.sample_rate : ℚ) / 1152
              let total_frames : ℚ := (file_size : ℚ) / (first.frame_size : ℚ)
              total_frames / frames_per_second
        let issues : List String :=
          (if frame_headers.isEmpty then ["No valid MP3 frames found"] else [])
          ++ (if first_frame_offset.isNone ∧ ¬has_id3v2 then
                ["No ID3v2 tag found, file may start with invalid data"]
              else [])
          ++ (match frame_headers with
              | first :: _ :: _ => vbrIssues first (frame_headers.enum.drop 1)
              | _ => [])
        .ok { file_size := file_size
              has_id3v2 := has_id3v2
              has_id3v1 := has_id3v1
              first_frame_offset := first_frame_offset
              frame_headers := frame_headers
              estimated_duration := estimated_duration
              issues := issues }

/-! ## Concrete inputs used by counterexamples and witnesses -/

/-- A track whose file decodes at the first strategy in `env0`. -/
def track0 : Track :=
  { id := "t1", file_path := ⟨"/music/a.mp3", some "mp3"⟩, title := "Song"
    artist := "Artist", album := "Album", track_number := none, year := none
    genre := none, duration := 180, cover_art := none }

/-- An environment where the track's file exists, is non-empty, and
decodes immediately. -/
def env0 : Env :=
  { fs := fun _ => some ⟨4, fun _ => 255⟩, dec := fun _ _ _ => true
    sink_ok := true, sink_err := "NoDevice" }

/-- An environment whose filesystem is empty (every path missing). -/
def envMissing : Env :=
  { fs := fun _ => none, dec := fun _ _ _ => true
    sink_ok := true, sink_err := "NoDevice" }

/-- A playing state 100s into a 180s track. -/
def st5 : AudioPlayerState :=
  { current_track := some track0, is_playing := true, volume := 1
    current_time := 100, duration := 180, playback_start_set := true }

/-- A playing state at the start of a 180s track. -/
def st6 : AudioPlayerState := { st5 with current_time := 0 }

/-- A live, unpaused sink. -/
def sink5 : SinkState := ⟨false, 1, false⟩

/-! ## Helper lemmas -/

theorem update_position_not_playing (sink : Option SinkState)
    (st : AudioPlayerState) (l e : ℚ) (h : st.is_playing = false) :
    update_position sink st l e = ⟨st, l, []⟩ := by
  cases sink <;> simp [update_position, h]

theorem runTicks_not_playing (sink : Option SinkState) (es : List ℚ)
    (st : AudioPlayerState) (l : ℚ) (h : st.is_playing = false) :
    runTicks sink es st l = ⟨st, l, []⟩ := by
  induction es with
  | nil => simp [runTicks]
  | cons e es ih => simp [runTicks, update_position_not_playing sink st l e h, ih]

theorem update_position_inv (sink : Option SinkState) (st : AudioPlayerState)
    (l e : ℚ) (h : st.current_time ≤ st.duration) :
    (update_position sink st l e).state.current_time
      ≤ (update_position sink st l e).state.duration := by
  cases sink with
  | none => simpa [update_position] using h
  | some s =>
      simp only [update_position]
      split
      · split
        · split
          · split <;> simpa
          · simp
        · simpa using h
      · simpa using h

theorem rustClamp_mem (v : ℚ) : 0 ≤ rustClamp v 0 1 ∧ rustClamp v 0 1 ≤ 1 := by
  unfold rustClamp
  split
  · norm_num
  · split
    · norm_num
    · constructor <;> linarith [not_lt.mp (by assumption : ¬ v < 0),
        not_lt.mp (by assumption : ¬ 1 < v)]

/-! ## Claims -/

/-- C2: for every volume `v`, `SetVolume` stores `clamp(v, 0, 1)`
unconditionally in the shared state (leaving the other fields
unchanged), applies the clamped value to the sink when one exists,
emits `VolumeChanged` with the clamped value, and succeeds; the stored
volume is always in `[0, 1]`. -/
theorem setVolume_clamps (v : ℚ) (st : AudioPlayerState)
    (sink : Option SinkState) :
    (handle_set_volume v st sink).res = .ok ()
    ∧ (handle_set_volume v st sink).state = { st with volume := rustClamp v 0 1 }
    ∧ (handle_set_volume v st sink).sink
        = sink.map (fun s => { s with volume := rustClamp v 0 1 })
    ∧ (handle_set_volume v st sink).events = [.VolumeChanged (rustClamp v 0 1)]
    ∧ 0 ≤ (handle_set_volume v st sink).state.volume
    ∧ (handle_set_volume v st sink).state.volume ≤ 1 :=
  ⟨rfl, rfl, rfl, rfl, (rustClamp_mem v).1, (rustClamp_mem v).2⟩

/-- C3: every `Seek` fails with an error containing "not supported" and
leaves the shared state, the sink slot and the event stream untouched. -/
theorem seek_always_fails (position : ℚ) (st : AudioPlayerState)
    (sink : Option SinkState) :
    (seekStep position st sink).res
      = .error (.Playback "Seeking is not supported in the current rodio version")
    ∧ "not supported".data <:+:
        "Seeking is not supported in the current rodio version".data
    ∧ (seekStep position st sink).state = st
    ∧ (seekStep position st sink).sink = sink
    ∧ (seekStep position st sink).events = [] :=
  ⟨rfl, by decide, rfl, rfl, rfl⟩

/-- C4 counterexample: a `Stop` that arrives while no sink exists (here:
in the initial state) emits nothing — in particular no `TrackStopped` —
refuting the claim that every `Stop` emits `TrackStopped`. -/
theorem stop_noSink_cex :
    (handle_stop initialState none).events = []
    ∧ PlaybackEvent.TrackStopped ∉ (handle_stop initialState none).events :=
  ⟨rfl, by simp [handle_stop]⟩

/-- C4 amended: `Stop` always succeeds and clears the sink slot; when a
sink exists it resets the state fields and emits `TrackStopped`, but
when no sink exists the state is left unchanged and no event is
emitted. -/
theorem stop_behavior (st : AudioPlayerState) (sink : Option SinkState) :
    (handle_stop st sink).res = .ok ()
    ∧ (handle_stop st sink).sink = none
    ∧ (∀ s, sink = some s →
        (handle_stop st sink).state
          = { st with is_playing := false, current_track := none,
                      current_time := 0, duration := 0,
                      playback_start_set := false }
        ∧ (handle_stop st sink).events = [.TrackStopped])
    ∧ (sink = none →
        (handle_stop st sink).state = st ∧ (handle_stop st sink).events = []) := by
  cases sink <;> simp [handle_stop]

/-- Witness for C4's amended theorem at concrete inputs (one stop with a
sink, one without). -/
theorem stop_behavior_witness :
    ((handle_stop st5 (some sink5)).state
        = { st5 with is_playing := false, current_track := none,
                     current_time := 0, duration := 0,
                     playback_start_set := false }
      ∧ (handle_stop st5 (some sink5)).events = [.TrackStopped])
    ∧ (handle_stop initialState none).state = initialState
    ∧ (handle_stop initialState none).events = [] :=
  ⟨(stop_behavior st5 (some sink5)).2.2.1 sink5 rfl,
   ((stop_behavior initialState none).2.2.2 rfl).1,
   ((stop_behavior initialState none).2.2.2 rfl).2⟩

/-- C9: whenever `PlayTrack` fails — for any failure cause — the shared
state is unchanged, even though a previously active sink was already
stopped (it stays in the slot, stopped). -/
theorem playTrack_failure_preserves_state (env : Env) (track : Track)
    (st : AudioPlayerState) (sink : Option SinkState) (e : AppError)
    (h : (handle_play_track env track st sink).res = .error e) :
    (handle_play_track env track st sink).state = st
    ∧ (handle_play_track env track st sink).events = []
    ∧ (handle_play_track env track st sink).sink
        = sink.map (fun s => { s with stopped := true }) := by
  by_cases hs : env.sink_ok = false
  · simp_all [handle_play_track]
  · rcases hfs : env.fs track.file_path with _ | file
    · simp_all [handle_play_track]
    · by_cases hz : file.size = 0
      · simp_all [handle_play_track]
      · rcases hcr : create_robust_decoder file (env.dec track.file_path)
          with er | d <;> simp_all [handle_play_track]

/-- Witness for C9 at a concrete input: a missing file. -/
theorem playTrack_failure_witness :
    (handle_play_track envMissing track0 st5 (some sink5)).state = st5
    ∧ (handle_play_track envMissing track0 st5 (some sink5)).events = []
    ∧ (handle_play_track envMissing track0 st5 (some sink5)).sink
        = (some sink5).map (fun s => { s with stopped := true }) :=
  playTrack_failure_preserves_state envMissing track0 st5 (some sink5)
    (.Playback ("Audio file not found: " ++ track0.file_path.display)) rfl

/-- C1 counterexample: on a successful `PlayTrack` the handler creates
the new sink *before* validating the file and resolving a decoder, so
its step trace differs from the order the claim prescribes (validate,
resolve, then create). -/
theorem playTrack_order_cex :
    (handle_play_track env0 track0 initialState none).res = .ok ()
    ∧ (handle_play_track env0 track0 initialState none).trace
        = codePlayTrackOrder false
    ∧ codePlayTrackOrder false ≠ specPlayTrackOrder false :=
  ⟨rfl, rfl, by decide⟩

/-- C1 amended: every successful `PlayTrack` performs stop-old-sink (if
one exists), create-sink, validate-exists, check-non-empty,
resolve-decoder, start-playback, set-state, emit-`TrackStarted` — in
that order (sink creation precedes validation) — and afterwards
`is_playing = true`, `current_time = 0`, `duration = track.duration`,
the current track is the new track, the new sink runs at the shared
volume, and exactly `TrackStarted` was emitted. -/
theorem playTrack_success_shape (env : Env) (track : Track)
    (st : AudioPlayerState) (sink : Option SinkState)
    (h : (handle_play_track env track st sink).res = .ok ()) :
    (handle_play_track env track st sink).trace = codePlayTrackOrder sink.isSome
    ∧ (handle_play_track env track st sink).state.is_playing = true
    ∧ (handle_play_track env track st sink).state.current_time = 0
    ∧ (handle_play_track env track st sink).state.duration = track.duration
    ∧ (handle_play_track env track st sink).state.current_track = some track
    ∧ (handle_play_track env track st sink).state.playback_start_set = true
    ∧ (handle_play_track env track st sink).state.volume = st.volume
    ∧ (handle_play_track env track st sink).events = [.TrackStarted track]
    ∧ (handle_play_track env track st sink).sink
        = some { paused := false, volume := st.volume, stopped := false } := by
  by_cases hs : env.sink_ok = false
  · simp_all [handle_play_track]
  · rcases hfs : env.fs track.file_path with _ | file
    · simp_all [handle_play_track]
    · by_cases hz : file.size = 0
      · simp_all [handle_play_track]
      · rcases hcr : create_robust_decoder file (env.dec track.file_path)
          with er | d <;> simp_all [handle_play_track, codePlayTrackOrder]

/-- Witness for C1's amended theorem at a concrete successful play. -/
theorem playTrack_success_witness :
    (handle_play_track env0 track0 initialState none).trace
        = codePlayTrackOrder false
    ∧ (handle_play_track env0 track0 initialState none).state.is_playing = true
    ∧ (handle_play_track env0 track0 initialState none).state.current_time = 0
    ∧ (handle_play_track env0 track0 initialState none).state.duration
        = track0.duration
    ∧ (handle_play_track env0 track0 initialState none).events
        = [.TrackStarted track0] := by
  have H := playTrack_success_shape env0 track0 initialState none rfl
  exact ⟨H.1, H.2.1, H.2.2.1, H.2.2.2.1, H.2.2.2.2.2.2.2.1⟩

/-- C5: a tick from a playing, unpaused state whose elapsed time pushes
the position past `duration` emits exactly `[TrackFinished]`, after
which `is_playing = false`, `current_time = duration`, and every later
tick emits nothing and changes nothing; a tick that stays within
`duration` never emits `TrackFinished`; and a single tick from any
state with `current_time ≤ duration` preserves that bound. -/
theorem tick_trackFinished (st : AudioPlayerState) (s : SinkState)
    (e last : ℚ) (hp : st.is_playing = true) (hpz : s.paused = false)
    (hst : st.playback_start_set = true)
    (_hinv : st.current_time ≤ st.duration) :
    (st.duration < st.current_time + e →
       (update_position (some s) st last e).events = [.TrackFinished]
       ∧ (update_position (some s) st last e).state.is_playing = false
       ∧ (update_position (some s) st last e).state.current_time = st.duration
       ∧ ∀ (es : List ℚ) (l2 : ℚ),
           (runTicks (some s) es
             (update_position (some s) st last e).state l2).events = []
           ∧ (runTicks (some s) es
               (update_position (some s) st last e).state l2).state
             = (update_position (some s) st last e).state)
    ∧ (st.current_time + e ≤ st.duration →
       PlaybackEvent.TrackFinished ∉ (update_position (some s) st last e).events
       ∧ (update_position (some s) st last e).state.current_time
           = st.current_time + e)
    ∧ (∀ (sk : Option SinkState) (st2 : AudioPlayerState) (l2 e2 : ℚ),
       st2.current_time ≤ st2.duration →
       (update_position sk st2 l2 e2).state.current_time
         ≤ (update_position sk st2 l2 e2).state.duration) := by
  refine ⟨fun hgt => ?_, fun hle => ?_,
    fun sk st2 l2 e2 h2 => update_position_inv sk st2 l2 e2 h2⟩
  · simp only [update_position]
    rw [if_pos (show st.is_playing = true ∧ s.paused = false from ⟨hp, hpz⟩),
        if_pos hst, if_neg (not_le.mpr hgt)]
    refine ⟨rfl, rfl, rfl, fun es l2 => ?_⟩
    rw [runTicks_not_playing _ _ _ _ rfl]
    exact ⟨rfl, rfl⟩
  · simp only [update_position]
    rw [if_pos (show st.is_playing = true ∧ s.paused = false from ⟨hp, hpz⟩),
        if_pos hst, if_pos hle]
    by_cases hth : 1/2 ≤ |st.current_time + e - last|
    · rw [if_pos hth]; exact ⟨by simp, rfl⟩
    · rw [if_neg hth]; exact ⟨by simp, rfl⟩

/-- Witness for C5 at a concrete crossing tick (100s + 100s elapsed on a
180s track), with two further ticks afterwards. -/
theorem tick_trackFinished_witness :
    (update_position (some sink5) st5 0 100).events = [.TrackFinished]
    ∧ (update_position (some sink5) st5 0 100).state.is_playing = false
    ∧ (update_position (some sink5) st5 0 100).state.current_time = st5.duration
    ∧ (runTicks (some sink5) [1, 2]
        (update_position (some sink5) st5 0 100).state 0).events = [] := by
  have H := tick_trackFinished st5 sink5 100 0 rfl rfl rfl (by norm_num [st5])
  have H1 := H.1 (by norm_num [st5])
  exact ⟨H1.1, H1.2.1, H1.2.2.1, (H1.2.2.2 [1, 2] 0).1⟩

/-- C6: on a tick that stays within `duration`, `PositionChanged` is
emitted iff the new position moved at least 0.5s from the last emitted
position (in which case the debounce register is updated to it);
sub-threshold ticks emit nothing and keep the register, while
`current_time` still advances to the new position in both cases. -/
theorem tick_positionDebounce (st : AudioPlayerState) (s : SinkState)
    (e last : ℚ) (hp : st.is_playing = true) (hpz : s.paused = false)
    (hst : st.playback_start_set = true)
    (hle : st.current_time + e ≤ st.duration) :
    ((update_position (some s) st last e).events
        = [.PositionChanged (st.current_time + e)]
      ↔ 1/2 ≤ |st.current_time + e - last|)
    ∧ (¬ 1/2 ≤ |st.current_time + e - last| →
        (update_position (some s) st last e).events = []
        ∧ (update_position (some s) st last e).last_position = last)
    ∧ (1/2 ≤ |st.current_time + e - last| →
        (update_position (some s) st last e).last_position
          = st.current_time + e)
    ∧ (update_position (some s) st last e).state.current_time
        = st.current_time + e := by
  simp only [update_position]
  rw [if_pos (show st.is_playing = true ∧ s.paused = false from ⟨hp, hpz⟩),
      if_pos hst, if_pos hle]
  by_cases hth : 1/2 ≤ |st.current_time + e - last|
  · rw [if_pos hth]
    exact ⟨iff_of_true rfl hth, fun hc => absurd hth hc, fun _ => rfl, rfl⟩
  · rw [if_neg hth]
    exact ⟨iff_of_false (by simp) hth, fun _ => ⟨rfl, rfl⟩,
           fun hc => absurd hc hth, rfl⟩

/-- Witness for C6 at concrete ticks: a 0.25s movement (below the
threshold: no event, register kept) and a 0.75s movement (at least the
threshold: event emitted, register updated), both advancing
`current_time`. -/
theorem tick_positionDebounce_witness :
    ((update_position (some sink5) st6 0 (1/4)).events = []
      ∧ (update_position (some sink5) st6 0 (1/4)).last_position = 0
      ∧ (update_position (some sink5) st6 0 (1/4)).state.current_time
          = st6.current_time + 1/4)
    ∧ ((update_position (some sink5) st6 0 (3/4)).events
          = [.PositionChanged (st6.current_time + 3/4)]
      ∧ (update_position (some sink5) st6 0 (3/4)).last_position
          = st6.current_time + 3/4) := by
  have Ha := tick_positionDebounce st6 sink5 (1/4) 0 rfl rfl rfl
    (by norm_num [st6, st5])
  have Hb := tick_positionDebounce st6 sink5 (3/4) 0 rfl rfl rfl
    (by norm_num [st6, st5])
  have hna : ¬ (1:ℚ)/2 ≤ |st6.current_time + 1/4 - 0| := by
    norm_num [st6, st5, abs_of_nonneg]
  have hyb : (1:ℚ)/2 ≤ |st6.current_time + 3/4 - 0| := by
    norm_num [st6, st5, abs_of_nonneg]
  exact ⟨⟨(Ha.2.1 hna).1, (Ha.2.1 hna).2, Ha.2.2.2⟩,
         ⟨Hb.1.mpr hyb, Hb.2.2.1 hyb⟩⟩

/-- Helper: a successful `skipHeaderScan` found a sync pair at the
returned offset, and decoding from it (default buffer) succeeded. -/
theorem skipHeaderScan_some (dec : DecOracle) (buf : Nat → Nat) :
    ∀ (fuel i j : Nat), skipHeaderScan dec buf fuel i = some j →
      isSyncPair (buf j) (buf (j + 1)) = true
      ∧ dec j DEFAULT_BUF_CAP = true := by
  intro fuel
  induction fuel with
  | zero => intro i j h; simp [skipHeaderScan] at h
  | succ fuel ih =>
      intro i j h
      by_cases hc : isSyncPair (buf i) (buf (i + 1)) = true
          ∧ dec i DEFAULT_BUF_CAP = true
      · rw [skipHeaderScan, if_pos hc] at h
        cases h
        exact hc
      · rw [skipHeaderScan, if_neg hc] at h
        exact ih (i + 1) j h

/-- A one-byte file no strategy can decode. -/
def fileTiny : FileData := ⟨1, fun _ => 0⟩

/-- A decode oracle that always fails. -/
def decNone : DecOracle := fun _ _ => false

/-- A 1 KiB file whose only frame sync sits at offset 1. -/
def fileScan : FileData := ⟨1024, fun j => [0, 255, 251, 144].getD j 0⟩

/-- A decode oracle succeeding only from offset 1. -/
def decAt1 : DecOracle := fun i _ => decide (i = 1)

/-- An environment whose (non-empty) file defeats every strategy. -/
def envDecodeFail : Env :=
  { fs := fun _ => some fileTiny, dec := fun _ => decNone
    sink_ok := true, sink_err := "NoDevice" }

/-- C7: the four decode strategies are tried in their fixed order and
the first success is returned; when all four fail the chain returns the
single aggregated failure message, and `handle_play_track` wraps it in
an error that carries the file extension; moreover, when the fourth
(scan) strategy is the one that succeeds after the first failed, the
offset it decodes from is non-zero. -/
theorem decoder_chain (file : FileData) (dec : DecOracle) :
    (∀ d, try_standard_decoder file dec = .ok d →
        create_robust_decoder file dec = .ok d)
    ∧ (∀ e1 d, try_standard_decoder file dec = .error e1 →
        try_buffered_decoder file dec = .ok d →
        create_robust_decoder file dec = .ok d)
    ∧ (∀ e1 e2 d, try_standard_decoder file dec = .error e1 →
        try_buffered_decoder file dec = .error e2 →
        try_validated_decoder file dec = .ok d →
        create_robust_decoder file dec = .ok d)
    ∧ (∀ e1 e2 e3 d, try_standard_decoder file dec = .error e1 →
        try_buffered_decoder file dec = .error e2 →
        try_validated_decoder file dec = .error e3 →
        try_skip_header_decoder file dec = .ok d →
        create_robust_decoder file dec = .ok d)
    ∧ (∀ e1 e2 e3 e4, try_standard_decoder file dec = .error e1 →
        try_buffered_decoder file dec = .error e2 →
        try_validated_decoder file dec = .error e3 →
        try_skip_header_decoder file dec = .error e4 →
        create_robust_decoder file dec = .error allStrategiesFailedMsg)
    ∧ (∀ e1 d, try_standard_decoder file dec = .error e1 →
        try_skip_header_decoder file dec = .ok d → d.offset ≠ 0)
    ∧ (∀ (env : Env) (track : Track) (st : AudioPlayerState)
        (sink : Option SinkState) (e : String),
        env.fs track.file_path = some file →
        env.dec track.file_path = dec →
        file.size ≠ 0 → env.sink_ok = true →
        create_robust_decoder file dec = .error e →
        (handle_play_track env track st sink).res
          = .error (.Playback (decodeFailMsg track.file_path
              (track.file_path.ext.getD "unknown") e))
        ∧ (track.file_path.ext.getD "unknown").data
            <:+: (decodeFailMsg track.file_path
                (track.file_path.ext.getD "unknown") e).data) := by
  refine ⟨?_, ?_, ?_, ?_, ?_, ?_, ?_⟩
  · intro d h1; simp [create_robust_decoder, h1]
  · intro e1 d h1 h2; simp [create_robust_decoder, h1, h2]
  · intro e1 e2 d h1 h2 h3; simp [create_robust_decoder, h1, h2, h3]
  · intro e1 e2 e3 d h1 h2 h3 h4
    simp [create_robust_decoder, h1, h2, h3, h4]
  · intro e1 e2 e3 e4 h1 h2 h3 h4
    simp [create_robust_decoder, h1, h2, h3, h4]
  · intro e1 d h1 h4
    have hdec0 : dec 0 DEFAULT_BUF_CAP = false := by
      by_cases hx : dec 0 DEFAULT_BUF_CAP = true
      · simp [try_standard_decoder, hx] at h1
      · simpa using hx
    by_cases hsz : file.size < 1024
    · simp [try_skip_header_decoder, hsz] at h4
    · rw [try_skip_header_decoder, if_neg hsz] at h4
      rcases hscan : skipHeaderScan dec file.byte (1024 - 4) 0 with _ | i
      · rw [hscan] at h4; exact absurd h4 (by simp)
      · rw [hscan] at h4
        have hd := (skipHeaderScan_some dec file.byte (1024 - 4) 0 i hscan).2
        cases h4
        intro h0
        have h0' : i = 0 := h0
        rw [h0'] at hd
        rw [hd] at hdec0
        simp at hdec0
  · intro env track st sink e hfs hdec hz hok hcr
    constructor
    · simp [handle_play_track, hok, hfs, hz, hdec, hcr]
    · refine ⟨("Failed to decode audio file '" ++ track.file_path.display
          ++ "' (format: ").data,
        ("): " ++ e
          ++ ". The audio file appears to be corrupted and cannot be played.").data,
        ?_⟩
      simp [decodeFailMsg, String.data_append, List.append_assoc]

/-- Witness for C7 at concrete inputs: a file defeating all four
strategies (aggregated failure, and the extension-carrying error at the
`PlayTrack` call site), and a file whose only working decode is the scan
strategy at offset 1. -/
theorem decoder_chain_witness :
    create_robust_decoder fileTiny decNone = .error allStrategiesFailedMsg
    ∧ create_robust_decoder fileScan decAt1
        = .ok ⟨1, DEFAULT_BUF_CAP⟩
    ∧ (⟨1, DEFAULT_BUF_CAP⟩ : DecoderHandle).offset ≠ 0
    ∧ (handle_play_track envDecodeFail track0 initialState none).res
        = .error (.Playback (decodeFailMsg track0.file_path
            (track0.file_path.ext.getD "unknown") allStrategiesFailedMsg))
    ∧ (track0.file_path.ext.getD "unknown").data
        <:+: (decodeFailMsg track0.file_path
            (track0.file_path.ext.getD "unknown") allStrategiesFailedMsg).data := by
  have A := (decoder_chain fileTiny decNone).2.2.2.2.1 "decoder error"
    "decoder error" "failed to fill whole buffer" "failed to fill whole buffer"
    rfl rfl rfl rfl
  have B := (decoder_chain fileScan decAt1).2.2.2.1 "decoder error"
    "decoder error" "File does not appear to have a valid MP3 header"
    ⟨1, DEFAULT_BUF_CAP⟩ rfl rfl rfl rfl
  have C := (decoder_chain fileScan decAt1).2.2.2.2.2.1 "decoder error"
    ⟨1, DEFAULT_BUF_CAP⟩ rfl rfl
  have D := (decoder_chain fileTiny decNone).2.2.2.2.2.2 envDecodeFail track0
    initialState none allStrategiesFailedMsg rfl rfl (by decide) rfl A
  exact ⟨A, B, C, D.1, D.2⟩

/-- Helper: the "file not found" message is never the "unsupported
format" message (their first characters differ). -/
theorem notFound_ne_unsupported (d m : String) :
    "Audio file not found: " ++ d ≠ unsupportedFormatMsg m := by
  intro h
  have h2 := congrArg (fun s => s.data.head?) h
  simp [String.data_append, unsupportedFormatMsg] at h2

/-- Helper: the "file is empty" message is never the "unsupported
format" message. -/
theorem empty_ne_unsupported (d m : String) :
    "Audio file is empty: " ++ d ≠ unsupportedFormatMsg m := by
  intro h
  have h2 := congrArg (fun s => s.data.head?) h
  simp [String.data_append, unsupportedFormatMsg] at h2

/-- Helper: the decode-phase failure message is never the "unsupported
format" message. -/
theorem cannotDecode_ne_unsupported (p : AudioPath) (fmt e m : String) :
    cannotDecodeMsg p fmt e ≠ unsupportedFormatMsg m := by
  intro h
  have h2 := congrArg (fun s => s.data.head?) h
  simp [String.data_append, unsupportedFormatMsg, cannotDecodeMsg] at h2

/-- C10: `validate_audio_file` rejects a file for its format exactly
when the path has an extension whose lowercasing is outside the
supported set (and the file exists and is non-empty); when the path has
no extension at all the extension check is skipped and the function
proceeds directly to the decode attempt. -/
theorem validate_extension_check (fs : AudioPath → Option FileData)
    (dec : AudioPath → DecOracle) (path : AudioPath) :
    (∀ file ext, fs path = some file → 0 < file.size → path.ext = some ext →
      supported_extensions.contains (to_lowercase ext) = false →
      validate_audio_file fs dec path
        = .error (.Playback (unsupportedFormatMsg (to_lowercase ext))))
    ∧ (∀ m, validate_audio_file fs dec path
          = .error (.Playback (unsupportedFormatMsg m)) →
        ∃ file ext, fs path = some file ∧ 0 < file.size
          ∧ path.ext = some ext
          ∧ supported_extensions.contains (to_lowercase ext) = false)
    ∧ (∀ file, fs path = some file → 0 < file.size → path.ext = none →
        validate_audio_file fs dec path
          = (match create_robust_decoder file (dec path) with
             | .error e => .error (.Playback (cannotDecodeMsg path "unknown" e))
             | .ok _ => .ok ())) := by
  refine ⟨?_, ?_, ?_⟩
  · intro file ext hfs hpos hext hcont
    have hz : ¬ file.size = 0 := Nat.pos_iff_ne_zero.mp hpos
    have hmem : to_lowercase ext ∉ supported_extensions := by simpa using hcont
    simp [validate_audio_file, hfs, hz, hext, hmem]
  · intro m h
    rcases hfs : fs path with _ | file
    · exfalso
      simp [validate_audio_file, hfs] at h
      exact notFound_ne_unsupported _ _ h
    · by_cases hz : file.size = 0
      · exfalso
        simp [validate_audio_file, hfs, hz] at h
        exact empty_ne_unsupported _ _ h
      · rcases hext : path.ext with _ | ext
        · exfalso
          rcases hcr : create_robust_decoder file (dec path) with er | dd
          · simp [validate_audio_file, hfs, hz, hext, hcr] at h
            exact cannotDecode_ne_unsupported _ _ _ _ h
          · simp [validate_audio_file, hfs, hz, hext, hcr] at h
        · by_cases hmem : to_lowercase ext ∈ supported_extensions
          · exfalso
            rcases hcr : create_robust_decoder file (dec path) with er | dd
            · simp [validate_audio_file, hfs, hz, hext, hmem, hcr] at h
              exact cannotDecode_ne_unsupported _ _ _ _ h
            · simp [validate_audio_file, hfs, hz, hext, hmem, hcr] at h
          · exact ⟨file, ext, rfl, Nat.pos_of_ne_zero hz, rfl,
              by simpa using hmem⟩
  · intro file hfs hpos hext
    have hz : ¬ file.size = 0 := Nat.pos_iff_ne_zero.mp hpos
    rcases hcr : create_robust_decoder file (dec path) with er | dd <;>
      simp [validate_audio_file, hfs, hz, hext, hcr]

/-- A path with no extension at all. -/
def pathNoExt : AudioPath := ⟨"/music/track", none⟩

/-- A path with an unsupported (uppercase) extension. -/
def pathExe : AudioPath := ⟨"/music/virus.EXE", some "EXE"⟩

/-- A filesystem mapping every path to the one-byte file. -/
def fsOne : AudioPath → Option FileData := fun _ => some fileTiny

/-- A per-path decode oracle that always succeeds. -/
def decTrue : AudioPath → DecOracle := fun _ _ _ => true

/-- Witness for C10 at concrete inputs: an extensionless existing
non-empty file reaches the decode attempt (and here validates), while a
`.EXE` file is rejected with the format error. -/
theorem validate_extension_check_witness :
    validate_audio_file fsOne decTrue pathNoExt = .ok ()
    ∧ validate_audio_file fsOne decTrue pathExe
        = .error (.Playback (unsupportedFormatMsg "exe")) := by
  constructor
  · have H := (validate_extension_check fsOne decTrue pathNoExt).2.2
      fileTiny rfl (by decide) rfl
    exact H.trans (by rfl)
  · have H := (validate_extension_check fsOne decTrue pathExe).1
      fileTiny "EXE" rfl (by decide) rfl (by decide)
    exact H.trans (by rfl)

/-- Helper: the frame scan never collects more than 5 headers. -/
theorem findFrames_length_le (buf : Nat → Nat) :
    ∀ (fuel i : Nat) (acc : List Mp3FrameHeader), acc.length < 5 →
      (findFrames buf fuel i acc).length ≤ 5 := by
  intro fuel
  induction fuel with
  | zero => intro i acc h; simpa [findFrames] using h.le
  | succ n ih =>
      intro i acc h
      simp only [findFrames]
      by_cases hs : isSyncPair (buf i) (buf (i + 1)) = true
      · rw [if_pos hs]
        rcases hp : parse_mp3_frame_header
            [buf i, buf (i + 1), buf (i + 2), buf (i + 3)] with _e | hh
        · exact ih (i + 1) acc h
        · show (if 5 ≤ (acc ++ [hh]).length then acc ++ [hh]
              else findFrames buf n (i + 1) (acc ++ [hh])).length ≤ 5
          by_cases h5 : 5 ≤ (acc ++ [hh]).length
          · rw [if_pos h5]
            simp only [List.length_append, List.length_singleton]
            omega
          · rw [if_neg h5]
            refine ih (i + 1) (acc ++ [hh]) ?_
            simp only [List.length_append, List.length_singleton] at h5 ⊢
            omega
      · rw [if_neg hs]; exact ih (i + 1) acc h

/-- Helper: every header the frame scan collects (beyond the initial
accumulator) was parsed from a 4-byte window inside the scanned range
whose first two bytes form a frame sync pair. -/
theorem findFrames_mem (buf : Nat → Nat) :
    ∀ (fuel i : Nat) (acc : List Mp3FrameHeader) (h : Mp3FrameHeader),
      h ∈ findFrames buf fuel i acc →
      h ∈ acc ∨ ∃ j, i ≤ j ∧ j < i + fuel
        ∧ isSyncPair (buf j) (buf (j + 1)) = true
        ∧ parse_mp3_frame_header
            [buf j, buf (j + 1), buf (j + 2), buf (j + 3)] = .ok h := by
  intro fuel
  induction fuel with
  | zero => intro i acc h hm; left; simpa [findFrames] using hm
  | succ n ih =>
      intro i acc h hm
      simp only [findFrames] at hm
      by_cases hs : isSyncPair (buf i) (buf (i + 1)) = true
      · rw [if_pos hs] at hm
        rcases hp : parse_mp3_frame_header
            [buf i, buf (i + 1), buf (i + 2), buf (i + 3)] with _e | hh
        · rw [hp] at hm
          have hm2 : h ∈ findFrames buf n (i + 1) acc := hm
          rcases ih (i + 1) acc h hm2 with hacc | ⟨j, hj1, hj2, hj3, hj4⟩
          · exact Or.inl hacc
          · exact Or.inr ⟨j, by omega, by omega, hj3, hj4⟩
        · rw [hp] at hm
          have hm2 : h ∈ (if 5 ≤ (acc ++ [hh]).length then acc ++ [hh]
              else findFrames buf n (i + 1) (acc ++ [hh])) := hm
          by_cases h5 : 5 ≤ (acc ++ [hh]).length
          · rw [if_pos h5] at hm2
            rcases List.mem_append.mp hm2 with hacc | hone
            · exact Or.inl hacc
            · have he : h = hh := by simpa using hone
              exact Or.inr ⟨i, le_refl i, by omega, hs, by rw [he]; exact hp⟩
          · rw [if_neg h5] at hm2
            rcases ih (i + 1) (acc ++ [hh]) h hm2 with hacc | ⟨j, hj1, hj2, hj3, hj4⟩
            · rcases List.mem_append.mp hacc with h1 | h2
              · exact Or.inl h1
              · have he : h = hh := by simpa using h2
                exact Or.inr ⟨i, le_refl i, by omega, hs, by rw [he]; exact hp⟩
            · exact Or.inr ⟨j, by omega, by omega, hj3, hj4⟩
      · rw [if_neg hs] at hm
        rcases ih (i + 1) acc h hm with hacc | ⟨j, hj1, hj2, hj3, hj4⟩
        · exact Or.inl hacc
        · exact Or.inr ⟨j, by omega, by omega, hj3, hj4⟩

/-- C8: for a sufficiently long file starting with the `"ID3"` marker,
the analyzer reports the tag, places the first frame offset at 10 plus
the synchsafe size `(b6 << 21) | (b7 << 14) | (b8 << 7) | b9`, collects
at most 5 frame headers, each parsed from a window of the 8 KiB frame
buffer whose first byte is `0xFF` and whose second byte has its top
three bits set, and estimates the duration as
`(file_size / frame_size) / (sample_rate / 1152)` from the first
header's fields. -/
theorem analyze_id3_structure (file : FileData)
    (hid3 : hasId3v2Marker file = true)
    (hsize : 10 + parse_id3v2_size (file.byte 6) (file.byte 7) (file.byte 8)
        (file.byte 9) + 8192 ≤ file.size) :
    ∃ info, analyze_mp3_file file = .ok info
      ∧ info.has_id3v2 = true
      ∧ info.first_frame_offset
          = some (10 + parse_id3v2_size (file.byte 6) (file.byte 7)
              (file.byte 8) (file.byte 9))
      ∧ info.frame_headers.length ≤ 5
      ∧ (∀ h ∈ info.frame_headers, ∃ j, j < 8188
          ∧ isSyncPair
              (file.byte (10 + parse_id3v2_size (file.byte 6) (file.byte 7)
                (file.byte 8) (file.byte 9) + j))
              (file.byte (10 + parse_id3v2_size (file.byte 6) (file.byte 7)
                (file.byte 8) (file.byte 9) + (j + 1))) = true
          ∧ parse_mp3_frame_header
              [file.byte (10 + parse_id3v2_size (file.byte 6) (file.byte 7)
                  (file.byte 8) (file.byte 9) + j),
               file.byte (10 + parse_id3v2_size (file.byte 6) (file.byte 7)
                  (file.byte 8) (file.byte 9) + (j + 1)),
               file.byte (10 + parse_id3v2_size (file.byte 6) (file.byte 7)
                  (file.byte 8) (file.byte 9) + (j + 2)),
               file.byte (10 + parse_id3v2_size (file.byte 6) (file.byte 7)
                  (file.byte 8) (file.byte 9) + (j + 3))] = .ok h)
      ∧ (∀ h rest, info.frame_headers = h :: rest →
          info.estimated_duration
            = ((file.size : ℚ) / (h.frame_size : ℚ))
              / ((h.sample_rate : ℚ) / 1152)) := by
  have h1 : ¬ file.size < 4096 := by omega
  have h2 : ¬ file.size < 128 := by omega
  simp only [analyze_mp3_file, hid3, if_true, h1, if_false, h2,
    Option.getD_some]
  rw [if_neg (by omega : ¬ file.size < 10 + parse_id3v2_size (file.byte 6)
    (file.byte 7) (file.byte 8) (file.byte 9) + 8192)]
  refine ⟨_, rfl, rfl, rfl, ?_, ?_, ?_⟩
  · exact findFrames_length_le _ (8192 - 4) 0 [] (by simp)
  · intro h hm
    rcases findFrames_mem _ (8192 - 4) 0 [] h hm with hacc | ⟨j, _, hj2, hj3, hj4⟩
    · simp at hacc
    · exact ⟨j, by omega, hj3, hj4⟩
  · intro h rest heq
    dsimp only at heq ⊢
    rw [heq]

/-- The bytes of an 8202-byte file: a 10-byte ID3v2 header with
synchsafe size 0, five consecutive MPEG1 Layer3 frame headers
(128 kbps, 44100 Hz), and zeros elsewhere. -/
def wByte : Nat → Nat := fun j =>
  [73, 68, 51, 3, 0, 0, 0, 0, 0, 0,
   255, 251, 144, 0, 255, 251, 144, 0, 255, 251, 144, 0,
   255, 251, 144, 0, 255, 251, 144, 0].getD j 0

/-- The concrete analyzer input file. -/
def wFile : FileData := ⟨8202, wByte⟩

/-- Witness for C8 at the concrete file `wFile`. -/
theorem analyze_id3_structure_witness :
    hasId3v2Marker wFile = true
    ∧ 10 + parse_id3v2_size (wFile.byte 6) (wFile.byte 7) (wFile.byte 8)
        (wFile.byte 9) + 8192 ≤ wFile.size
    ∧ ∃ info, analyze_mp3_file wFile = .ok info
      ∧ info.has_id3v2 = true
      ∧ info.first_frame_offset
          = some (10 + parse_id3v2_size (wFile.byte 6) (wFile.byte 7)
              (wFile.byte 8) (wFile.byte 9))
      ∧ info.frame_headers.length ≤ 5
      ∧ (∀ h ∈ info.frame_headers, ∃ j, j < 8188
          ∧ isSyncPair
              (wFile.byte (10 + parse_id3v2_size (wFile.byte 6) (wFile.byte 7)
                (wFile.byte 8) (wFile.byte 9) + j))
              (wFile.byte (10 + parse_id3v2_size (wFile.byte 6) (wFile.byte 7)
                (wFile.byte 8) (wFile.byte 9) + (j + 1))) = true
          ∧ parse_mp3_frame_header
              [wFile.byte (10 + parse_id3v2_size (wFile.byte 6) (wFile.byte 7)
                  (wFile.byte 8) (wFile.byte 9) + j),
               wFile.byte (10 + parse_id3v2_size (wFile.byte 6) (wFile.byte 7)
                  (wFile.byte 8) (wFile.byte 9) + (j + 1)),
               wFile.byte (10 + parse_id3v2_size (wFile.byte 6) (wFile.byte 7)
                  (wFile.byte 8) (wFile.byte 9) + (j + 2)),
               wFile.byte (10 + parse_id3v2_size (wFile.byte 6) (wFile.byte 7)
                  (wFile.byte 8) (wFile.byte 9) + (j + 3))] = .ok h)
      ∧ (∀ h rest, info.frame_headers = h :: rest →
          info.estimated_duration
            = ((wFile.size : ℚ) / (h.frame_size : ℚ))
              / ((h.sample_rate : ℚ) / 1152)) :=
  ⟨rfl, by decide, analyze_id3_structure wFile rfl (by decide)⟩

end AudioPlayer
